import Mathlib

/-!
Shallow embedding of the NSP Bolt-Ride real-time trip processing core:
`src/lambda/lambda.py` (event validation, reconciliation merge, quarantine
upsert, per-batch handler loop) and `src/glue/glue.py` (completeness filter,
KPI aggregation, processed-date state file).

JSON values decoded from the stream are modelled by `Value`; a decoded JSON
object (a Python dict) is modelled by an association list `Payload`; a
persisted DynamoDB item is modelled by a finite map `String → Option Value`.
Python floats are converted to `Decimal` on every write path
(`convert_floats_to_decimal`), so all numbers are modelled exactly as `ℚ`
and that conversion is the identity here.
-/

/-- A decoded JSON value: null, string, number (Decimal-exact), or boolean. -/
inductive Value where
  | vnull : Value
  | vstr : String → Value
  | vnum : ℚ → Value
  | vbool : Bool → Value
deriving DecidableEq, Repr

/-- A decoded JSON object (Python dict) as an association list. -/
abbrev Payload := List (String × Value)

/-- Python `data.get(k)`: `none` both when the key is absent and models the
dict lookup; a stored JSON `null` is `some .vnull`. -/
def pyGet (data : Payload) (k : String) : Option Value :=
  (List.find? (fun kv => kv.1 = k) data).map (fun kv => kv.2)

/-- Python `k in data`. -/
def hasField (data : Payload) (k : String) : Bool :=
  (List.find? (fun kv => kv.1 = k) data).isSome

/-- Python `str.strip()` on the character list of a string: surrounding
whitespace removed. -/
def stripChars (cs : List Char) : List Char :=
  (List.dropWhile Char.isWhitespace
    (List.dropWhile Char.isWhitespace cs).reverse).reverse

/-- `is_blank(val)` from lambda.py: `val is None or (isinstance(val, str) and
val.strip() == '') or val == 'null'`.  A JSON `null` decodes to Python `None`,
and `data.get` of an absent key is also `None`, so both map to blank. -/
def is_blank : Option Value → Bool
  | none => true
  | some .vnull => true
  | some (.vstr s) => (stripChars s.toList).isEmpty || s = "null"
  | some _ => false

/-- Python `isinstance(x, str)` on an optional value (`None` is not a str). -/
def isStr : Option Value → Bool
  | some (.vstr _) => true
  | _ => false

/-- The required fields checked in the `trip_start` branch of
`validate_record`, in source order. -/
def startRequired : List String :=
  ["trip_id", "pickup_location_id", "dropoff_location_id", "vendor_id",
   "pickup_datetime"]

/-- The required fields checked in the `trip_end` branch of
`validate_record`, in source order. -/
def endRequired : List String :=
  ["trip_id", "dropoff_datetime", "fare_amount", "payment_type",
   "trip_distance"]

/-- The validation loop body: `if field not in data or is_blank(data[field])`. -/
def fieldFails (data : Payload) (f : String) : Bool :=
  !(hasField data f) || is_blank (pyGet data f)

/-- The first field the validation loop rejects, if any (the loop returns on
the first failing field). -/
def firstFailing (data : Payload) (fields : List String) : Option String :=
  List.find? (fieldFails data) fields

/-- `validate_record(data)` from lambda.py: returns `(is_valid, reason)`.
Phase is inferred by field presence: `pickup_location_id` present implies
`trip_start` (checked first), else `dropoff_datetime` present implies
`trip_end`, else unknown record type. -/
def validate_record (data : Payload) : Bool × String :=
  if is_blank (pyGet data "trip_id") || !(isStr (pyGet data "trip_id")) then
    (false, "Missing or invalid trip_id")
  else if hasField data "pickup_location_id" then
    match firstFailing data startRequired with
    | some f =>
        (false, "Missing, null, or blank required field '" ++ f ++ "' in trip_start")
    | none => (true, "trip_start")
  else if hasField data "dropoff_datetime" then
    match firstFailing data endRequired with
    | some f =>
        (false, "Missing, null, or blank required field '" ++ f ++ "' in trip_end")
    | none => (true, "trip_end")
  else
    (false, "Unknown record type - missing key fields")

/-- An event is a valid `trip_start` when `validate_record` accepts it with
reason `trip_start`. -/
def isValidStart (data : Payload) : Bool :=
  validate_record data = (true, "trip_start")

/-- An event is a valid `trip_end` when `validate_record` accepts it with
reason `trip_end`. -/
def isValidEnd (data : Payload) : Bool :=
  validate_record data = (true, "trip_end")

/-- A persisted entity (trip) record: DynamoDB item as a finite attribute map;
absent attributes are `none` (unset fields are absent, never null). -/
abbrev EntityRecord := String → Option Value

/-- The empty item (no attributes). -/
def emptyRecord : EntityRecord := fun _ => none

/-- Setting one attribute of an item (one `SET k = :v` clause). -/
def setField (r : EntityRecord) (k : String) (v : Value) : EntityRecord :=
  fun a => if a = k then some v else r a

/-- The reconciler merge from `lambda_handler`: for every key/value of the
validated payload except the primary key `trip_id`, a `SET k = :k` clause is
emitted, so the update writes exactly the received fields and leaves every
other attribute of the item untouched. -/
def merge_event (r : EntityRecord) (data : Payload) : EntityRecord :=
  List.foldl
    (fun acc kv => if kv.1 = "trip_id" then acc else setField acc kv.1 kv.2)
    r data

/-- The value the update expression built from `data` writes at attribute `k`
(the last occurrence wins, `trip_id` is skipped), or `none` when the update
leaves `k` alone. -/
def writes (data : Payload) (k : String) : Option Value :=
  if k = "trip_id" then none
  else
    List.foldl (fun acc kv => if kv.1 = k then some kv.2 else acc)
      (none : Option Value) data

/-- The fold of `writes` with an arbitrary starting value (proof scaffolding
for the merge characterization). -/
def writesAux (data : Payload) (k : String) (acc : Option Value) : Option Value :=
  List.foldl (fun a kv => if kv.1 = k then some kv.2 else a) acc data

/-- A persisted error-table row (`TripDataErrors`): ordered reason and
timestamp sequences plus the most recent rejected raw payload. -/
structure ErrorRecord where
  error_reasons : List String
  error_timestamps : List String
  original_data : Payload
deriving DecidableEq

/-- An error store: error records keyed by trip id. -/
abbrev ErrorStore := String → Option ErrorRecord

/-- `upsert_error_record` from lambda.py.  The DynamoDB update expression
appends `[reason]` and `[timestamp]` to the (possibly not yet existing, then
empty) `error_reasons` and `error_timestamps` lists and replaces
`original_data` wholesale.  The `datetime.utcnow()` timestamp is passed in as
`now`; `convert_floats_to_decimal` is the identity here since numbers are
already exact. -/
def upsert_error_record (store : ErrorStore) (trip_id reason : String)
    (original_data : Payload) (now : String) : ErrorStore :=
  fun k =>
    if k = trip_id then
      match store trip_id with
      | some r =>
          some { error_reasons := r.error_reasons ++ [reason]
                 error_timestamps := r.error_timestamps ++ [now]
                 original_data := original_data }
      | none =>
          some { error_reasons := [reason]
                 error_timestamps := [now]
                 original_data := original_data }
    else store k

/-- The reason list of an optional error row (`[]` when the row is absent,
matching `if_not_exists(error_reasons, :empty_list)`). -/
def reasonsOf : Option ErrorRecord → List String
  | none => []
  | some r => r.error_reasons

/-- The timestamp list of an optional error row. -/
def timestampsOf : Option ErrorRecord → List String
  | none => []
  | some r => r.error_timestamps

/-- One quarantine write: target key, reason, raw payload and the wall-clock
timestamp taken for it. -/
structure QWrite where
  trip_id : String
  reason : String
  original_data : Payload
  now : String

/-- A sequence of quarantine writes applied in arrival order. -/
def applyQWrites (store : ErrorStore) (ws : List QWrite) : ErrorStore :=
  List.foldl
    (fun s w => upsert_error_record s w.trip_id w.reason w.original_data w.now)
    store ws

/-- The trip store (`TripData` table): items keyed by trip id. -/
abbrev TripStore := String → Option EntityRecord

/-- `table.update_item(Key={trip_id}, SET …)` from `lambda_handler`: if no
item exists for the key, DynamoDB creates one holding the key attribute, then
the update expression writes every non-key field of the payload. -/
def tableUpsert (tbl : TripStore) (tid : String) (data : Payload) : TripStore :=
  fun k =>
    if k = tid then
      some (merge_event
        ((tbl tid).getD (setField emptyRecord "trip_id" (.vstr tid))) data)
    else tbl k

/-- The two persisted stores the handler writes. -/
structure Stores where
  table : TripStore
  error_table : ErrorStore

/-- The handler's per-batch counters. -/
structure BatchCounts where
  processed_records : Nat
  error_records : Nat
  failed_records : Nat
deriving DecidableEq, Repr

/-- The outcome of decoding one Kinesis record's envelope
(`base64.b64decode` + `json.loads` are library calls; this models their
result): either a decoded payload or a decode failure
(`json.JSONDecodeError` / `base64.binascii.Error`). -/
inductive KinesisRecord where
  | ok (data : Payload) : KinesisRecord
  | badDecode : KinesisRecord

/-- The body of the `for record in event['Records']` loop of
`lambda_handler`, for one record.  `freshId` models the `str(uuid.uuid4())`
drawn for this record and `now` the `datetime.utcnow()` timestamp.  A decode
failure only bumps `failed_records`; an invalid record is quarantined under
its own string id unless that id is blank or not a string, in which case the
fresh synthetic id is used; a valid record is merged into the trip table. -/
def processRecord (s : Stores) (c : BatchCounts) (freshId now : String) :
    KinesisRecord → Stores × BatchCounts
  | .badDecode => (s, { c with failed_records := c.failed_records + 1 })
  | .ok data =>
    let v := validate_record data
    if v.1 then
      -- data['trip_id']: validation guarantees a present string id here
      let tid := match pyGet data "trip_id" with
        | some (.vstr t) => t
        | _ => ""
      ({ s with table := tableUpsert s.table tid data },
       { c with processed_records := c.processed_records + 1 })
    else
      let t0 := pyGet data "trip_id"
      let tid :=
        if is_blank t0 || !(isStr t0) then freshId
        else match t0 with
          | some (.vstr t) => t
          | _ => freshId
      ({ s with error_table := upsert_error_record s.error_table tid v.2 data now },
       { c with error_records := c.error_records + 1 })

/-- The whole batch loop: each item carries its decode outcome together with
the fresh uuid and timestamp the iteration would draw. -/
def processBatch (items : List (String × String × KinesisRecord))
    (s : Stores) (c : BatchCounts) : Stores × BatchCounts :=
  List.foldl (fun sc it => processRecord sc.1 sc.2 it.1 it.2.1 it.2.2) (s, c) items

/-- The natural number a run of ASCII digit characters denotes. -/
def digitsToNat (cs : List Char) : Nat :=
  List.foldl (fun n c => 10 * n + (c.toNat - 48)) 0 cs

/-- Model of Python `Decimal(string)`: surrounding whitespace is stripped,
then an optional sign, an integer part and an optional fractional part are
read.  Exponents, underscores and the special values (NaN, Infinity) are not
modelled; no claim exercises them. -/
def parseDec (s : String) : Option ℚ :=
  let cs := stripChars s.toList
  let signed : Bool × List Char :=
    match cs with
    | '-' :: t => (true, t)
    | '+' :: t => (false, t)
    | t => (false, t)
  let intPart := List.takeWhile Char.isDigit signed.2
  let rest := List.dropWhile Char.isDigit signed.2
  let mag : Option ℚ :=
    match rest with
    | [] => if intPart.isEmpty then none else some (digitsToNat intPart : ℚ)
    | '.' :: frac =>
      if (List.all frac Char.isDigit) && !(intPart.isEmpty && frac.isEmpty) then
        some ((digitsToNat intPart : ℚ)
          + (digitsToNat frac : ℚ) / ((10 : ℚ) ^ frac.length))
      else none
    | _ => none
  Option.map (fun q => if signed.1 then -q else q) mag

/-- Model of `datetime.fromisoformat(s).date().isoformat()` restricted to the
forms this pipeline exercises: `YYYY-MM-DD`, optionally followed by one
separator character and a `HH:MM:SS` time of day.  Fractional seconds and
UTC offsets are not modelled; no claim exercises them. -/
def fromisoDate (s : String) : Option String :=
  match s.toList with
  | y1 :: y2 :: y3 :: y4 :: '-' :: m1 :: m2 :: '-' :: d1 :: d2 :: rest =>
    if (List.all [y1, y2, y3, y4, m1, m2, d1, d2] Char.isDigit = true)
        ∧ 1 ≤ digitsToNat [m1, m2] ∧ digitsToNat [m1, m2] ≤ 12
        ∧ 1 ≤ digitsToNat [d1, d2] ∧ digitsToNat [d1, d2] ≤ 31 then
      match rest with
      | [] => some (String.mk [y1, y2, y3, y4, '-', m1, m2, '-', d1, d2])
      | _ :: h1 :: h2 :: ':' :: n1 :: n2 :: ':' :: s1 :: s2 :: [] =>
        if (List.all [h1, h2, n1, n2, s1, s2] Char.isDigit = true)
            ∧ digitsToNat [h1, h2] < 24 ∧ digitsToNat [n1, n2] < 60
            ∧ digitsToNat [s1, s2] < 60 then
          some (String.mk [y1, y2, y3, y4, '-', m1, m2, '-', d1, d2])
        else none
      | _ => none
    else none
  | _ => none

/-- `Decimal(str(trip['fare_amount']))` under the surrounding try/except:
a stored number reparses to itself, a string is parsed as a decimal literal,
anything else (`str(None)`, `str(True)`, …) fails to parse, so the
except-branch skips the record. -/
def fareOf : Option Value → Option ℚ
  | some (.vnum q) => some q
  | some (.vstr s) => parseDec s
  | _ => none

/-- The dropoff-date derivation of `filter_completed_trips`: strip one
trailing literal `Z`, then `fromisoformat(...).date().isoformat()`.  A
non-string value makes `.endswith` raise, which the except-branch turns into
a skip. -/
def dropoffDate (trip : Payload) : Option String :=
  match pyGet trip "dropoff_datetime" with
  | some (.vstr s) =>
    let cs := s.toList
    fromisoDate
      (String.mk (if cs.getLast? = some 'Z' then cs.dropLast else cs))
  | _ => none

/-- The per-field presence check of `filter_completed_trips`:
`field in trip and trip[field] not in (None, '', 'null')`, applied to
`parse_dynamodb_item` output.  That parser converts only the `S`/`N`/`M`/`L`
attribute types and returns anything else unchanged, so a stored null is
still the wire dict `{'NULL': True}` — not Python `None` — and passes the
tuple check, as does a stored boolean (`{'BOOL': ...}`); no parsed value is
ever Python `None`, so the tuple's `None` member never fires.  Only the
empty string and the literal string `'null'` are excluded; whitespace-only
strings also pass. -/
def presentAndNotNullish (trip : Payload) (f : String) : Bool :=
  match pyGet trip f with
  | none => false
  | some v => !(v == Value.vstr "" || v == Value.vstr "null")

/-- The nine critical columns of `filter_completed_trips`, in source order. -/
def glueRequiredFields : List String :=
  ["trip_id", "pickup_location_id", "dropoff_location_id", "vendor_id",
   "pickup_datetime", "dropoff_datetime", "fare_amount", "payment_type",
   "trip_distance"]

/-- The per-record body of `filter_completed_trips`: all nine fields present
and not in `(None, '', 'null')`, fare parses as a strictly positive Decimal,
dropoff datetime parses; returns the derived dropoff date on success, `none`
when any check makes the loop `continue`. -/
def tripChecks (trip : Payload) : Option String :=
  if List.all glueRequiredFields (presentAndNotNullish trip) then
    match fareOf (pyGet trip "fare_amount") with
    | some fare => if fare ≤ 0 then none else dropoffDate trip
    | none => none
  else none

/-- A trip is classified complete by the aggregation scan exactly when the
loop appends it to some date bucket. -/
def isCompleteTrip (trip : Payload) : Bool :=
  (tripChecks trip).isSome

/-- `completed_trips_by_date[dropoff_date].append(trip)` on the defaultdict,
modelled on an association list in insertion order. -/
def addToDate (m : List (String × List Payload)) (d : String) (t : Payload) :
    List (String × List Payload) :=
  match m with
  | [] => [(d, [t])]
  | (d1, ts) :: rest =>
    if d1 = d then (d1, ts ++ [t]) :: rest else (d1, ts) :: addToDate rest d t

/-- `filter_completed_trips(records)` from glue.py: the grouped mapping from
derived dropoff date to the completed trips of that date. -/
def filter_completed_trips (records : List Payload) :
    List (String × List Payload) :=
  List.foldl
    (fun m trip =>
      match tripChecks trip with
      | some d => addToDate m d trip
      | none => m)
    [] records

/-- The fields only the `trip_end` phase requires (including its
discriminator `dropoff_datetime`). -/
def endPhaseFields : List String :=
  ["dropoff_datetime", "fare_amount", "payment_type", "trip_distance"]

/-- A payload with every end-phase field removed; used to state that the
validator never consults them once the start discriminator is present. -/
def eraseEndFields (data : Payload) : Payload :=
  List.filter (fun kv => !(List.contains endPhaseFields kv.1)) data

/-- One KPI output row.  All monetary fields are exact (`Decimal`); the
`float(...)` conversions of glue.py happen only at the serialization
boundary and are modelled as the identity. -/
structure KPIRecord where
  date : String
  total_fare : ℚ
  count_trips : Nat
  average_fare : ℚ
  max_fare : ℚ
  min_fare : ℚ
deriving DecidableEq, Repr

/-- `calculate_kpis(trips_by_date)` from glue.py: per date, the fares that
parse as Decimals; a date with no valid fares is skipped, otherwise count,
sum, average (sum/count, else 0 for an empty set), max and min are emitted. -/
def calculate_kpis (m : List (String × List Payload)) :
    List (String × KPIRecord) :=
  List.foldl
    (fun acc dk =>
      match List.filterMap (fun t => fareOf (pyGet t "fare_amount")) dk.2 with
      | [] => acc
      | f :: fs =>
        let total : ℚ := List.foldl (· + ·) 0 (f :: fs)
        let count : Nat := (f :: fs).length
        acc ++ [(dk.1,
          { date := dk.1
            total_fare := total
            count_trips := count
            average_fare := if 0 < count then total / (count : ℚ) else 0
            max_fare := List.foldl max f fs
            min_fare := List.foldl min f fs })])
    [] m

/-- `read_state_file()` from glue.py: the stored state document's
`processed_dates` (`stored = none` models `NoSuchKey`, initialising `[]`). -/
def read_state_file (stored : Option (List String)) : List String :=
  stored.getD []

/-- Lexicographic code-point order on character lists (Python string `<`). -/
def charsLt : List Char → List Char → Bool
  | [], [] => false
  | [], _ :: _ => true
  | _ :: _, [] => false
  | a :: as, b :: bs =>
    if a.toNat < b.toNat then true
    else if b.toNat < a.toNat then false
    else charsLt as bs

/-- Insertion into a sorted duplicate-free list of date strings. -/
def insertSortedUnique (x : String) : List String → List String
  | [] => [x]
  | y :: t =>
    if x = y then y :: t
    else if charsLt x.toList y.toList then x :: y :: t
    else y :: insertSortedUnique x t

/-- `write_state_file(processed_dates)` stores
`sorted(list(set(processed_dates)))`: the dates, deduplicated and sorted. -/
def write_state_file (dates : List String) : List String :=
  List.foldl (fun acc d => insertSortedUnique d acc) [] dates

/-- Modelled from the spec: the aggregation job's driver routine is not under
src (glue.py defines `read_state_file`, `filter_completed_trips`,
`calculate_kpis`, `write_state_file` but no main).  Per §4.6/§7 the run reads
the ledger, computes the KPIs of the scanned records, publishes only the
dates not already marked processed, and finally stores the union of the old
ledger with the newly published dates wholesale.  Returns (published KPI
mapping, new ledger). -/
def runAggregation (stored : Option (List String)) (records : List Payload) :
    List (String × KPIRecord) × List String :=
  let processed := read_state_file stored
  let kpis := calculate_kpis (filter_completed_trips records)
  let published := List.filter (fun dk => !(List.contains processed dk.1)) kpis
  (published,
   write_state_file (processed ++ List.map (fun dk => dk.1) published))

/-- A valid `trip_start` event. -/
def sampleStart : Payload :=
  [("trip_id", .vstr "t1"), ("pickup_location_id", .vstr "A"),
   ("dropoff_location_id", .vstr "B"), ("vendor_id", .vstr "v1"),
   ("pickup_datetime", .vstr "2024-06-01T10:00:00Z")]

/-- A valid `trip_end` event for the same trip. -/
def sampleEnd : Payload :=
  [("trip_id", .vstr "t1"), ("dropoff_datetime", .vstr "2024-06-01T11:00:00Z"),
   ("fare_amount", .vnum 25), ("payment_type", .vstr "card"),
   ("trip_distance", .vnum 3)]

/-- A valid `trip_start` event carrying an extra non-phase field `note`. -/
def notedStart : Payload :=
  [("trip_id", .vstr "t1"), ("pickup_location_id", .vstr "A"),
   ("dropoff_location_id", .vstr "B"), ("vendor_id", .vstr "v1"),
   ("pickup_datetime", .vstr "2024-06-01T10:00:00Z"), ("note", .vstr "a")]

/-- A valid `trip_end` event for the same trip whose extra field `note`
conflicts with the one of `notedStart`. -/
def notedEnd : Payload :=
  [("trip_id", .vstr "t1"), ("dropoff_datetime", .vstr "2024-06-01T11:00:00Z"),
   ("fare_amount", .vnum 25), ("payment_type", .vstr "card"),
   ("trip_distance", .vnum 3), ("note", .vstr "b")]

/-- A payload carrying both phase discriminators whose end-phase required
fields are all blank. -/
def bothPhases : Payload :=
  [("trip_id", .vstr "t1"), ("pickup_location_id", .vstr "A"),
   ("dropoff_location_id", .vstr "B"), ("vendor_id", .vstr "v1"),
   ("pickup_datetime", .vstr "2024-06-01T10:00:00Z"),
   ("dropoff_datetime", .vstr " "), ("fare_amount", .vnull),
   ("payment_type", .vstr ""), ("trip_distance", .vstr "null")]

/-- A fully merged trip record whose `vendor_id` is a stored JSON null. -/
def nullFieldTrip : Payload :=
  [("trip_id", .vstr "t2"), ("pickup_location_id", .vstr "A"),
   ("dropoff_location_id", .vstr "B"), ("vendor_id", .vnull),
   ("pickup_datetime", .vstr "2024-06-01T10:00:00Z"),
   ("dropoff_datetime", .vstr "2024-06-01T11:00:00Z"),
   ("fare_amount", .vnum 25), ("payment_type", .vstr "card"),
   ("trip_distance", .vnum 3)]

/-- A fully merged trip record whose `vendor_id` is a whitespace-only
string. -/
def spaceyTrip : Payload :=
  [("trip_id", .vstr "t1"), ("pickup_location_id", .vstr "A"),
   ("dropoff_location_id", .vstr "B"), ("vendor_id", .vstr " "),
   ("pickup_datetime", .vstr "2024-06-01T10:00:00Z"),
   ("dropoff_datetime", .vstr "2024-06-01T11:00:00Z"),
   ("fare_amount", .vnum 25), ("payment_type", .vstr "card"),
   ("trip_distance", .vnum 3)]

/-- A fully merged, well-formed trip record with fare 10.00 and dropoff date
2024-06-01. -/
def tripA : Payload :=
  [("trip_id", .vstr "tA"), ("pickup_location_id", .vstr "A"),
   ("dropoff_location_id", .vstr "B"), ("vendor_id", .vstr "v1"),
   ("pickup_datetime", .vstr "2024-06-01T09:00:00Z"),
   ("dropoff_datetime", .vstr "2024-06-01T09:30:00Z"),
   ("fare_amount", .vnum 10), ("payment_type", .vstr "card"),
   ("trip_distance", .vnum 2)]

/-- Like `tripA` with fare 20.00. -/
def tripB : Payload :=
  [("trip_id", .vstr "tB"), ("pickup_location_id", .vstr "C"),
   ("dropoff_location_id", .vstr "D"), ("vendor_id", .vstr "v2"),
   ("pickup_datetime", .vstr "2024-06-01T10:00:00Z"),
   ("dropoff_datetime", .vstr "2024-06-01T10:30:00Z"),
   ("fare_amount", .vnum 20), ("payment_type", .vstr "cash"),
   ("trip_distance", .vnum 4)]

/-- Like `tripA` with fare 30.00. -/
def tripC : Payload :=
  [("trip_id", .vstr "tC"), ("pickup_location_id", .vstr "E"),
   ("dropoff_location_id", .vstr "F"), ("vendor_id", .vstr "v3"),
   ("pickup_datetime", .vstr "2024-06-01T11:00:00Z"),
   ("dropoff_datetime", .vstr "2024-06-01T11:30:00Z"),
   ("fare_amount", .vnum 30), ("payment_type", .vstr "card"),
   ("trip_distance", .vnum 6)]

/-- A pair of concrete quarantine writes to the same key. -/
def sampleWrites : List QWrite :=
  [⟨"k1", "Unknown record type - missing key fields", [("x", .vnum 1)],
    "2024-06-01T00:00:00Z"⟩,
   ⟨"k1", "Missing or invalid trip_id", [("y", .vstr "z")],
    "2024-06-01T00:00:01Z"⟩]

/-- Empty stores (no trip items, no error rows). -/
def emptyStores : Stores :=
  { table := fun _ => none, error_table := fun _ => none }

/-- Zeroed batch counters. -/
def zeroCounts : BatchCounts :=
  { processed_records := 0, error_records := 0, failed_records := 0 }

/-- The KPI rows a single date group contributes (empty when no fare of the
group parses); `calculate_kpis` emits exactly these rows groupwise. -/
def kpiRowsOf (dk : String × List Payload) : List (String × KPIRecord) :=
  match List.filterMap (fun t => fareOf (pyGet t "fare_amount")) dk.2 with
  | [] => []
  | f :: fs =>
    let total : ℚ := List.foldl (· + ·) 0 (f :: fs)
    let count : Nat := (f :: fs).length
    [(dk.1,
      { date := dk.1
        total_fare := total
        count_trips := count
        average_fare := if 0 < count then total / (count : ℚ) else 0
        max_fare := List.foldl max f fs
        min_fare := List.foldl min f fs })]

/-! ### Merge characterization -/

theorem writesAux_cons (kv : String × Value) (rest : Payload) (k : String)
    (acc : Option Value) :
    writesAux (kv :: rest) k acc
      = writesAux rest k (if kv.1 = k then some kv.2 else acc) := rfl

theorem writesAux_elim (k : String) :
    ∀ (data : Payload) (acc : Option Value),
      writesAux data k acc = Option.elim (writesAux data k none) acc some := by
  intro data
  induction data with
  | nil => intro acc; rfl
  | cons kv rest ih =>
    intro acc
    rw [writesAux_cons, writesAux_cons]
    by_cases h : kv.1 = k
    · rw [if_pos h, if_pos h, ih (some kv.2)]
      cases writesAux rest k none <;> rfl
    · rw [if_neg h, if_neg h, ih acc]

theorem writes_cons (kv : String × Value) (rest : Payload) (k : String)
    (hk : ¬ (k = "trip_id")) :
    writes (kv :: rest) k
      = Option.elim (writes rest k) (if kv.1 = k then some kv.2 else none) some := by
  unfold writes
  rw [if_neg hk, if_neg hk]
  show writesAux (kv :: rest) k none = Option.elim (writesAux rest k none) _ some
  rw [writesAux_cons, writesAux_elim]

theorem merge_writes (k : String) :
    ∀ (data : Payload) (r : EntityRecord),
      merge_event r data k = Option.elim (writes data k) (r k) some := by
  intro data
  induction data with
  | nil =>
    intro r
    show r k = Option.elim (writes [] k) (r k) some
    unfold writes
    by_cases h : k = "trip_id" <;> simp [h, writesAux]
  | cons kv rest ih =>
    intro r
    show merge_event (if kv.1 = "trip_id" then r else setField r kv.1 kv.2) rest k
      = Option.elim (writes (kv :: rest) k) (r k) some
    rw [ih]
    by_cases hk : k = "trip_id"
    · have hrest : writes rest k = none := by unfold writes; rw [if_pos hk]
      have hcons : writes (kv :: rest) k = none := by unfold writes; rw [if_pos hk]
      rw [hrest, hcons]
      show (if kv.1 = "trip_id" then r else setField r kv.1 kv.2) k = r k
      by_cases h1 : kv.1 = "trip_id"
      · rw [if_pos h1]
      · rw [if_neg h1]
        show (if k = kv.1 then some kv.2 else r k) = r k
        rw [if_neg (fun he => h1 (he.symm.trans hk))]
    · rw [writes_cons kv rest k hk]
      cases hna : writes rest k with
      | some v => rfl
      | none =>
        show (if kv.1 = "trip_id" then r else setField r kv.1 kv.2) k
          = Option.elim (if kv.1 = k then some kv.2 else none) (r k) some
        by_cases h1 : kv.1 = k
        · rw [if_pos h1, if_neg (fun he => hk (h1.symm.trans he))]
          show (if k = kv.1 then some kv.2 else r k) = some kv.2
          rw [if_pos h1.symm]
        · rw [if_neg h1]
          by_cases h2 : kv.1 = "trip_id"
          · rw [if_pos h2]; rfl
          · rw [if_neg h2]
            show (if k = kv.1 then some kv.2 else r k) = Option.elim none (r k) some
            rw [if_neg (fun he => h1 he.symm)]
            rfl

theorem writes_some_mem (k : String) :
    ∀ (data : Payload) (v : Value), writes data k = some v → ∃ kv ∈ data, kv.1 = k := by
  intro data
  induction data with
  | nil =>
    intro v h
    unfold writes at h
    by_cases hk : k = "trip_id"
    · rw [if_pos hk] at h; exact absurd h (by simp)
    · rw [if_neg hk] at h; exact absurd h (by simp [writesAux])
  | cons kv rest ih =>
    intro v h
    by_cases hk : k = "trip_id"
    · unfold writes at h; rw [if_pos hk] at h; exact absurd h (by simp)
    · rw [writes_cons kv rest k hk] at h
      cases hna : writes rest k with
      | some w =>
        obtain ⟨kv1, hmem, hkey⟩ := ih w hna
        exact ⟨kv1, List.mem_cons_of_mem kv hmem, hkey⟩
      | none =>
        rw [hna] at h
        by_cases h1 : kv.1 = k
        · exact ⟨kv, List.mem_cons_self kv rest, h1⟩
        · rw [if_neg h1] at h
          exact absurd h (by simp)

/-! ### C1: merge commutation and idempotence -/

/-- C1 (amended): for a valid `start`/`end` event pair for the same trip id
whose payloads do not write conflicting values to any shared non-key field
(in particular whenever each event carries only its own phase's fields, whose
field sets are disjoint), applying the two merges in either order yields an
identical final entity record, and applying either event twice equals
applying it once. -/
theorem C1_merge_commutes_and_idempotent (e1 e2 : Payload) (r : EntityRecord)
    (_h1 : isValidStart e1 = true) (_h2 : isValidEnd e2 = true)
    (_hid : pyGet e1 "trip_id" = pyGet e2 "trip_id")
    (hagree : ∀ kv ∈ e1, writes e2 kv.1 = none ∨ writes e1 kv.1 = writes e2 kv.1) :
    merge_event (merge_event r e1) e2 = merge_event (merge_event r e2) e1
      ∧ merge_event (merge_event r e1) e1 = merge_event r e1
      ∧ merge_event (merge_event r e2) e2 = merge_event r e2 := by
  refine ⟨funext fun k => ?_, funext fun k => ?_, funext fun k => ?_⟩
  · simp only [merge_writes]
    cases ha : writes e1 k with
    | none => cases hb : writes e2 k <;> rfl
    | some v1 =>
      cases hb : writes e2 k with
      | none => rfl
      | some v2 =>
        obtain ⟨kv, hmem, hkey⟩ := writes_some_mem k e1 v1 ha
        rcases hagree kv hmem with hn | he
        · rw [hkey] at hn
          rw [hn] at hb
          cases hb
        · rw [hkey, ha, hb] at he
          cases he
          rfl
  · simp only [merge_writes]
    cases writes e1 k <;> rfl
  · simp only [merge_writes]
    cases writes e2 k <;> rfl

/-- C1 witness: the clean start/end pair for trip `t1` merges to the same
record in either order. -/
theorem C1_merge_witness :
    merge_event (merge_event emptyRecord sampleStart) sampleEnd
      = merge_event (merge_event emptyRecord sampleEnd) sampleStart :=
  (C1_merge_commutes_and_idempotent sampleStart sampleEnd emptyRecord
    (by decide) (by decide) (by decide) (by decide)).1

/-- C1 counterexample: a valid start event and a valid end event for the same
trip id that share the extra field `note` with different values merge to
different records depending on order, so the claim as stated (for every valid
start/end pair) fails. -/
theorem C1_merge_counterexample :
    isValidStart notedStart = true ∧ isValidEnd notedEnd = true
      ∧ pyGet notedStart "trip_id" = pyGet notedEnd "trip_id"
      ∧ merge_event (merge_event emptyRecord notedStart) notedEnd
          ≠ merge_event (merge_event emptyRecord notedEnd) notedStart := by
  refine ⟨by decide, by decide, by decide, fun h => ?_⟩
  have h1 : merge_event (merge_event emptyRecord notedStart) notedEnd "note"
      = some (Value.vstr "b") := by decide
  have h2 : merge_event (merge_event emptyRecord notedEnd) notedStart "note"
      = some (Value.vstr "a") := by decide
  rw [congrFun h "note", h2] at h1
  exact absurd h1 (by decide)

/-! ### C4: validator classification -/

/-- C4: for every payload with a valid identifier, the phase is inferred by
field presence (`pickup_location_id` implies start, else `dropoff_datetime`
implies end, else invalid with the unknown-record-type reason), and for the
implied phase the first missing-or-blank required field in listed order
determines the invalid reason, while all fields passing yields the valid
phase. -/
theorem C4_validate_classification (data : Payload)
    (hid : (is_blank (pyGet data "trip_id") || !(isStr (pyGet data "trip_id"))) = false) :
    (hasField data "pickup_location_id" = false →
      hasField data "dropoff_datetime" = false →
      validate_record data = (false, "Unknown record type - missing key fields"))
    ∧ (hasField data "pickup_location_id" = true →
        (firstFailing data startRequired = none →
          validate_record data = (true, "trip_start"))
        ∧ (∀ f, firstFailing data startRequired = some f →
            validate_record data
              = (false, "Missing, null, or blank required field '" ++ f ++ "' in trip_start")))
    ∧ (hasField data "pickup_location_id" = false →
        hasField data "dropoff_datetime" = true →
        (firstFailing data endRequired = none →
          validate_record data = (true, "trip_end"))
        ∧ (∀ f, firstFailing data endRequired = some f →
            validate_record data
              = (false, "Missing, null, or blank required field '" ++ f ++ "' in trip_end"))) := by
  refine ⟨?_, ?_, ?_⟩
  · intro hp hd
    simp [validate_record, hid, hp, hd]
  · intro hp
    constructor
    · intro hnone
      simp [validate_record, hid, hp, hnone]
    · intro f hsome
      simp [validate_record, hid, hp, hsome]
  · intro hp hd
    constructor
    · intro hnone
      simp [validate_record, hid, hp, hd, hnone]
    · intro f hsome
      simp [validate_record, hid, hp, hd, hsome]

/-- C4 witness: the sample start event is classified `trip_start`. -/
theorem C4_validate_witness : validate_record sampleStart = (true, "trip_start") :=
  ((C4_validate_classification sampleStart (by decide)).2.1 (by decide)).1 (by decide)

/-! ### C10: start discriminator takes precedence, end fields unchecked -/

theorem find_filter_keys (p : String → Bool) (k : String) (hp : p k = true) :
    ∀ data : Payload,
      List.find? (fun kv => kv.1 = k) (List.filter (fun kv => p kv.1) data)
        = List.find? (fun kv => kv.1 = k) data := by
  intro data
  induction data with
  | nil => rfl
  | cons kv rest ih =>
    rw [List.filter_cons]
    by_cases hkv : kv.1 = k
    · rw [if_pos (show p kv.1 = true by rw [hkv, hp])]
      rw [List.find?_cons_of_pos _ (by simp [hkv]),
        List.find?_cons_of_pos _ (by simp [hkv])]
    · by_cases hpkv : p kv.1 = true
      · rw [if_pos hpkv]
        rw [List.find?_cons_of_neg _ (by simp [hkv]),
          List.find?_cons_of_neg _ (by simp [hkv]), ih]
      · rw [if_neg (by simp [hpkv])]
        rw [ih, List.find?_cons_of_neg _ (by simp [hkv])]

theorem pyGet_eraseEnd (data : Payload) (k : String)
    (hk : List.contains endPhaseFields k = false) :
    pyGet (eraseEndFields data) k = pyGet data k := by
  unfold pyGet eraseEndFields
  rw [find_filter_keys (fun x => !(List.contains endPhaseFields x)) k
    (by simpa using hk)]

theorem hasField_eraseEnd (data : Payload) (k : String)
    (hk : List.contains endPhaseFields k = false) :
    hasField (eraseEndFields data) k = hasField data k := by
  unfold hasField eraseEndFields
  rw [find_filter_keys (fun x => !(List.contains endPhaseFields x)) k
    (by simpa using hk)]

theorem firstFailing_eraseEnd (data : Payload) :
    ∀ fields : List String,
      (∀ f ∈ fields, List.contains endPhaseFields f = false) →
      firstFailing (eraseEndFields data) fields = firstFailing data fields := by
  intro fields
  induction fields with
  | nil => intro _; rfl
  | cons f fs ih =>
    intro hf
    have h1 : fieldFails (eraseEndFields data) f = fieldFails data f := by
      unfold fieldFails
      rw [pyGet_eraseEnd data f (hf f (List.mem_cons_self f fs)),
        hasField_eraseEnd data f (hf f (List.mem_cons_self f fs))]
    unfold firstFailing at *
    rw [List.find?_cons, List.find?_cons, h1]
    cases fieldFails data f
    · exact ih (fun g hg => hf g (List.mem_cons_of_mem f hg))
    · rfl

/-- C10: when a payload carries both phase discriminators, the start
discriminator wins: the validator's verdict is unchanged when every
end-phase field is removed (the end-phase required fields are never
consulted), and an accepting verdict is always `trip_start`. -/
theorem C10_start_precedence (data : Payload)
    (hp : hasField data "pickup_location_id" = true)
    (_hd : hasField data "dropoff_datetime" = true) :
    validate_record (eraseEndFields data) = validate_record data
      ∧ ((validate_record data).1 = true → (validate_record data).2 = "trip_start") := by
  have hid : pyGet (eraseEndFields data) "trip_id" = pyGet data "trip_id" :=
    pyGet_eraseEnd data _ (by decide)
  have hpk : hasField (eraseEndFields data) "pickup_location_id"
      = hasField data "pickup_location_id" :=
    hasField_eraseEnd data _ (by decide)
  have hff : firstFailing (eraseEndFields data) startRequired
      = firstFailing data startRequired :=
    firstFailing_eraseEnd data startRequired (by decide)
  constructor
  · unfold validate_record
    rw [hid, hpk, hff, hp]
    rcases Bool.eq_false_or_eq_true
        (is_blank (pyGet data "trip_id") || !(isStr (pyGet data "trip_id"))) with hb | hb
    · simp [hb]
    · simp [hb]
  · intro hv
    rcases Bool.eq_false_or_eq_true
        (is_blank (pyGet data "trip_id") || !(isStr (pyGet data "trip_id"))) with hb | hb
    · unfold validate_record at hv
      simp [hb] at hv
    · rcases hf : firstFailing data startRequired with _ | f
      · simp [validate_record, hb, hp, hf]
      · unfold validate_record at hv
        simp [hb, hp, hf] at hv

/-- C10 witness: on a payload carrying both discriminators (with all
end-phase required fields blank), removing the end-phase fields does not
change the verdict. -/
theorem C10_start_precedence_witness :
    validate_record (eraseEndFields bothPhases) = validate_record bothPhases :=
  (C10_start_precedence bothPhases (by decide) (by decide)).1

/-! ### C5: quarantine accumulation -/

/-- C5: quarantining two different invalid events under the same key,
starting from no error row for that key, yields a row with exactly the two
reasons in arrival order, the two timestamps in arrival order, and the raw
payload of the second event only. -/
theorem C5_quarantine_accumulation (store : ErrorStore) (k r1 r2 t1 t2 : String)
    (p1 p2 : Payload) (h0 : store k = none) (_hne : p1 ≠ p2) :
    (upsert_error_record (upsert_error_record store k r1 p1 t1) k r2 p2 t2) k
      = some { error_reasons := [r1, r2]
               error_timestamps := [t1, t2]
               original_data := p2 } := by
  unfold upsert_error_record
  simp [h0]

/-- C5 witness: two concrete invalid events quarantined under key `k1`. -/
theorem C5_quarantine_witness :
    (upsert_error_record
        (upsert_error_record (fun _ => none) "k1"
          "Unknown record type - missing key fields" [("x", .vnum 1)]
          "2024-06-01T00:00:00Z")
        "k1" "Missing or invalid trip_id" [("y", .vstr "z")]
        "2024-06-01T00:00:01Z") "k1"
      = some { error_reasons :=
                 ["Unknown record type - missing key fields",
                  "Missing or invalid trip_id"]
               error_timestamps :=
                 ["2024-06-01T00:00:00Z", "2024-06-01T00:00:01Z"]
               original_data := [("y", .vstr "z")] } :=
  C5_quarantine_accumulation (fun _ => none) "k1"
    "Unknown record type - missing key fields" "Missing or invalid trip_id"
    "2024-06-01T00:00:00Z" "2024-06-01T00:00:01Z"
    [("x", .vnum 1)] [("y", .vstr "z")] rfl (by decide)

/-! ### C6: error-row sequences stay aligned and only grow -/

/-- C6: over any sequence of quarantine writes, an error row whose reason and
timestamp sequences have equal length keeps them of equal length, and both
sequences only ever grow: the old sequences are prefixes of the new ones. -/
theorem C6_quarantine_invariant (store : ErrorStore) (ws : List QWrite) (k : String)
    (h : (reasonsOf (store k)).length = (timestampsOf (store k)).length) :
    (reasonsOf ((applyQWrites store ws) k)).length
        = (timestampsOf ((applyQWrites store ws) k)).length
      ∧ reasonsOf (store k) <+: reasonsOf ((applyQWrites store ws) k)
      ∧ timestampsOf (store k) <+: timestampsOf ((applyQWrites store ws) k) := by
  induction ws generalizing store with
  | nil => exact ⟨h, List.prefix_refl _, List.prefix_refl _⟩
  | cons w ws ih =>
    have hstep :
        reasonsOf ((upsert_error_record store w.trip_id w.reason w.original_data w.now) k)
            = reasonsOf (store k)
              ++ (if k = w.trip_id then [w.reason] else [])
          ∧ timestampsOf ((upsert_error_record store w.trip_id w.reason w.original_data w.now) k)
            = timestampsOf (store k)
              ++ (if k = w.trip_id then [w.now] else []) := by
      unfold upsert_error_record
      by_cases hk : k = w.trip_id
      · rw [← hk]
        cases hs : store k <;> simp [hk, hs, reasonsOf, timestampsOf]
      · simp [hk]
    have h2 : (reasonsOf ((upsert_error_record store w.trip_id w.reason w.original_data w.now) k)).length
        = (timestampsOf ((upsert_error_record store w.trip_id w.reason w.original_data w.now) k)).length := by
      rw [hstep.1, hstep.2]
      by_cases hk : k = w.trip_id
      · subst hk
        simp [h]
      · simp [hk, h]
    obtain ⟨ha, hb, hc⟩ := ih _ h2
    refine ⟨ha, ?_, ?_⟩
    · exact ((hstep.1 ▸ List.prefix_append _ _) : _ <+: _).trans hb
    · exact ((hstep.2 ▸ List.prefix_append _ _) : _ <+: _).trans hc

/-- C6 witness: two concrete writes to key `k1` from the empty store. -/
theorem C6_quarantine_invariant_witness :
    (reasonsOf ((applyQWrites (fun _ => none) sampleWrites) "k1")).length
      = (timestampsOf ((applyQWrites (fun _ => none) sampleWrites) "k1")).length :=
  (C6_quarantine_invariant (fun _ => none) sampleWrites "k1" rfl).1

/-! ### C8: blank or non-string identifier -/

/-- C8: an event whose `trip_id` is blank (absent, null, empty or
whitespace-only, or the literal string `null`) or not a string is classified
invalid with the missing-identifier reason regardless of its other fields,
and the handler quarantines it under the freshly generated synthetic
identifier, not under its own. -/
theorem C8_synthetic_id (data : Payload) (s : Stores) (c : BatchCounts)
    (freshId now : String)
    (h : (is_blank (pyGet data "trip_id") || !(isStr (pyGet data "trip_id"))) = true) :
    validate_record data = (false, "Missing or invalid trip_id")
      ∧ processRecord s c freshId now (.ok data)
        = ({ s with error_table :=
               (upsert_error_record s.error_table freshId
                 "Missing or invalid trip_id" data now) },
           { c with error_records := c.error_records + 1 }) := by
  have hv : validate_record data = (false, "Missing or invalid trip_id") := by
    unfold validate_record
    rw [if_pos h]
  refine ⟨hv, ?_⟩
  simp [processRecord, hv, h]

/-- C8 witness: the literal string `null` as `trip_id` is quarantined under
the synthetic identifier. -/
theorem C8_synthetic_id_witness :
    validate_record [("trip_id", .vstr "null")]
      = (false, "Missing or invalid trip_id") :=
  (C8_synthetic_id [("trip_id", .vstr "null")] emptyStores zeroCounts
    "uuid-1" "2024-06-01T00:00:00Z" (by decide)).1

/-! ### C9: decode failures -/

/-- C9: a record whose transport envelope cannot be decoded only increments
the failed-record counter: the trip table and the quarantine store are left
untouched and the rest of the batch is processed exactly as if the bad
record were not there. -/
theorem C9_decode_failure (items : List (String × String × KinesisRecord))
    (fid now : String) (s : Stores) (c : BatchCounts) :
    processBatch ((fid, now, .badDecode) :: items) s c
        = processBatch items s { c with failed_records := c.failed_records + 1 }
      ∧ (processRecord s c fid now .badDecode).1 = s
      ∧ (processRecord s c fid now .badDecode).1.error_table = s.error_table :=
  ⟨rfl, rfl, rfl⟩

/-! ### C3: completeness filter and blank fields -/

/-- C3 counterexample: a record whose `vendor_id` is a whitespace-only
string — blank under the claim's definition — is nevertheless classified
complete by the aggregation filter, which never strips whitespace; likewise
a record whose `vendor_id` is a stored null, since `parse_dynamodb_item`
leaves it as the wire dict `{'NULL': True}`, which is not in
`(None, '', 'null')`. -/
theorem C3_whitespace_counterexample :
    isCompleteTrip spaceyTrip = true
      ∧ is_blank (pyGet spaceyTrip "vendor_id") = true
      ∧ isCompleteTrip nullFieldTrip = true
      ∧ is_blank (pyGet nullFieldTrip "vendor_id") = true := by
  decide

/-- C3 (amended): the completeness filter classifies a record complete only
if every one of the nine required fields is present and is neither the empty
string nor the literal string `null`.  Unlike the ingestion-time `is_blank`,
the filter treats whitespace-only strings — and stored nulls, which reach it
as their DynamoDB wire form — as present and non-blank. -/
theorem C3_complete_only_if_fields (trip : Payload)
    (h : isCompleteTrip trip = true) :
    ∀ f ∈ glueRequiredFields,
      hasField trip f = true
        ∧ pyGet trip f ≠ some (Value.vstr "")
        ∧ pyGet trip f ≠ some (Value.vstr "null") := by
  intro f hf
  unfold isCompleteTrip tripChecks at h
  rcases Bool.eq_false_or_eq_true
      (List.all glueRequiredFields (presentAndNotNullish trip)) with hall | hall
  swap
  · rw [hall] at h
    simp at h
  · have hfield : presentAndNotNullish trip f = true := by
      have := List.all_eq_true.mp hall f hf
      exact this
    unfold presentAndNotNullish at hfield
    cases hg : pyGet trip f with
    | none => rw [hg] at hfield; cases hfield
    | some v =>
      rw [hg] at hfield
      simp only [Bool.not_eq_true'] at hfield
      refine ⟨?_, ?_, ?_⟩
      · unfold hasField
        unfold pyGet at hg
        cases hfind : List.find? (fun kv => kv.1 = f) trip with
        | none => rw [hfind] at hg; cases hg
        | some kv => rfl
      · intro he
        cases he
        simp at hfield
      · intro he
        cases he
        simp at hfield

/-- C3 witness: a fully well-formed record is complete, so its `vendor_id`
is present and non-nullish. -/
theorem C3_complete_only_if_witness :
    hasField tripA "vendor_id" = true
      ∧ pyGet tripA "vendor_id" ≠ some (Value.vstr "")
      ∧ pyGet tripA "vendor_id" ≠ some (Value.vstr "null") :=
  C3_complete_only_if_fields tripA (by decide) "vendor_id" (by decide)

/-! ### C7: KPI numeric correctness -/

/-- C7: three completed records with dropoff date 2024-06-01 and fares 10.00,
20.00, 30.00 aggregate to exactly the KPI record with count 3, total 60,
average 20, max 30, min 10, computed exactly; and a date whose valid-fare set
is empty produces no KPI record at all. -/
theorem C7_kpi_numeric :
    calculate_kpis (filter_completed_trips [tripA, tripB, tripC])
        = [("2024-06-01",
            { date := "2024-06-01", total_fare := 60, count_trips := 3,
              average_fare := 20, max_fare := 30, min_fare := 10 })]
      ∧ ∀ (d : String) (trips : List Payload),
          List.filterMap (fun t => fareOf (pyGet t "fare_amount")) trips = [] →
          calculate_kpis [(d, trips)] = [] := by
  constructor
  · have hf : filter_completed_trips [tripA, tripB, tripC]
        = [("2024-06-01", [tripA, tripB, tripC])] := by decide
    have hm : List.filterMap (fun t => fareOf (pyGet t "fare_amount"))
        [tripA, tripB, tripC] = [10, 20, 30] := by decide
    rw [hf]
    simp only [calculate_kpis, List.foldl, hm]
    norm_num [max_def, min_def]
  · intro d trips h
    simp [calculate_kpis, h]

/-- C7 witness: a date with no trips at all yields no KPI record. -/
theorem C7_kpi_numeric_witness : calculate_kpis [("2024-06-02", [])] = [] :=
  C7_kpi_numeric.2 "2024-06-02" [] rfl

/-! ### C2: ledger idempotence -/

theorem mem_insertSortedUnique (a x : String) :
    ∀ l : List String, a ∈ insertSortedUnique x l ↔ a = x ∨ a ∈ l := by
  intro l
  induction l with
  | nil => simp [insertSortedUnique]
  | cons y t ih =>
    unfold insertSortedUnique
    by_cases h1 : x = y
    · rw [if_pos h1]
      subst h1
      simp [List.mem_cons]
    · rw [if_neg h1]
      by_cases h2 : charsLt x.toList y.toList = true
      · rw [if_pos h2]
        simp [List.mem_cons]
      · rw [if_neg h2]
        simp [List.mem_cons, ih]
        tauto

theorem mem_foldl_insertSortedUnique (a : String) :
    ∀ (dates acc : List String),
      a ∈ List.foldl (fun acc d => insertSortedUnique d acc) acc dates
        ↔ a ∈ acc ∨ a ∈ dates := by
  intro dates
  induction dates with
  | nil => intro acc; simp
  | cons d ds ih =>
    intro acc
    rw [List.foldl_cons, ih, mem_insertSortedUnique]
    simp [List.mem_cons]
    tauto

theorem mem_write_state_file (a : String) (dates : List String) :
    a ∈ write_state_file dates ↔ a ∈ dates := by
  unfold write_state_file
  rw [mem_foldl_insertSortedUnique]
  simp

theorem addToDate_keys (d : String) (t : Payload) :
    ∀ m : List (String × List Payload),
      List.map Prod.fst (addToDate m d t)
        = if d ∈ List.map Prod.fst m then List.map Prod.fst m
          else List.map Prod.fst m ++ [d] := by
  intro m
  induction m with
  | nil => simp [addToDate]
  | cons e rest ih =>
    obtain ⟨d1, ts⟩ := e
    by_cases h1 : d1 = d
    · subst h1
      simp [addToDate]
    · have hne : ¬ (d = d1) := fun he => h1 he.symm
      simp only [addToDate, if_neg h1, List.map_cons, ih]
      by_cases h2 : d ∈ List.map Prod.fst rest
      · rw [if_pos h2, if_pos (by simp [List.mem_cons, h2])]
      · rw [if_neg h2, if_neg (by simp [List.mem_cons, hne, h2])]
        rfl

theorem addToDate_keys_nodup (d : String) (t : Payload)
    (m : List (String × List Payload))
    (h : (List.map Prod.fst m).Nodup) :
    (List.map Prod.fst (addToDate m d t)).Nodup := by
  rw [addToDate_keys]
  by_cases h2 : d ∈ List.map Prod.fst m
  · rw [if_pos h2]; exact h
  · rw [if_neg h2]
    simp [List.nodup_append, h, h2]

theorem filter_completed_trips_keys_nodup_aux :
    ∀ (records : List Payload) (m : List (String × List Payload)),
      (List.map Prod.fst m).Nodup →
      (List.map Prod.fst (List.foldl
        (fun m trip =>
          match tripChecks trip with
          | some d => addToDate m d trip
          | none => m)
        m records)).Nodup := by
  intro records
  induction records with
  | nil => intro m h; exact h
  | cons r rs ih =>
    intro m h
    rw [List.foldl_cons]
    rcases htc : tripChecks r with _ | d
    · exact ih m h
    · exact ih _ (addToDate_keys_nodup d r m h)

theorem filter_completed_trips_keys_nodup (records : List Payload) :
    (List.map Prod.fst (filter_completed_trips records)).Nodup :=
  filter_completed_trips_keys_nodup_aux records [] (by simp)

theorem calculate_kpis_flatMap :
    ∀ (m : List (String × List Payload)) (acc : List (String × KPIRecord)),
      List.foldl
        (fun acc dk =>
          match List.filterMap (fun t => fareOf (pyGet t "fare_amount")) dk.2 with
          | [] => acc
          | f :: fs =>
            let total : ℚ := List.foldl (· + ·) 0 (f :: fs)
            let count : Nat := (f :: fs).length
            acc ++ [(dk.1,
              { date := dk.1
                total_fare := total
                count_trips := count
                average_fare := if 0 < count then total / (count : ℚ) else 0
                max_fare := List.foldl max f fs
                min_fare := List.foldl min f fs })])
        acc m
      = acc ++ List.flatMap m kpiRowsOf := by
  intro m
  induction m with
  | nil => intro acc; simp
  | cons dk rest ih =>
    intro acc
    rw [List.foldl_cons, ih]
    rcases hm : List.filterMap (fun t => fareOf (pyGet t "fare_amount")) dk.2
      with _ | ⟨f, fs⟩ <;>
      simp [kpiRowsOf, hm, List.flatMap_cons]

theorem calculate_kpis_eq_flatMap (m : List (String × List Payload)) :
    calculate_kpis m = List.flatMap m kpiRowsOf :=
  (calculate_kpis_flatMap m []).trans (by simp)

theorem calculate_kpis_keys_sublist (m : List (String × List Payload)) :
    List.Sublist (List.map Prod.fst (calculate_kpis m)) (List.map Prod.fst m) := by
  rw [calculate_kpis_eq_flatMap]
  induction m with
  | nil => simp
  | cons dk rest ih =>
    rw [List.flatMap_cons, List.map_append, List.map_cons]
    rcases hm : List.filterMap (fun t => fareOf (pyGet t "fare_amount")) dk.2
      with _ | ⟨f, fs⟩
    · have : kpiRowsOf dk = [] := by simp [kpiRowsOf, hm]
      rw [this]
      exact List.Sublist.cons dk.1 ih
    · have : List.map Prod.fst (kpiRowsOf dk) = [dk.1] := by simp [kpiRowsOf, hm]
      rw [this]
      exact List.Sublist.cons₂ dk.1 ih

theorem calculate_kpis_keys_nodup (records : List Payload) :
    (List.map Prod.fst (calculate_kpis (filter_completed_trips records))).Nodup :=
  (filter_completed_trips_keys_nodup records).sublist
    (calculate_kpis_keys_sublist (filter_completed_trips records))

/-- C2: an aggregation run publishes KPIs only for dates not already in the
processed-date ledger, each published date appears at most once, and a second
run over the same unchanged entity store (starting from the ledger the first
run wrote) publishes nothing. -/
theorem C2_ledger_idempotence (stored : Option (List String)) (records : List Payload) :
    (∀ dk ∈ (runAggregation stored records).1, dk.1 ∉ read_state_file stored)
      ∧ (List.map Prod.fst (runAggregation stored records).1).Nodup
      ∧ (runAggregation (some (runAggregation stored records).2) records).1 = [] := by
  refine ⟨?_, ?_, ?_⟩
  · intro dk hdk
    have h1 := (List.mem_filter.mp hdk).2
    simp only [Bool.not_eq_true'] at h1
    intro hmem
    rw [show (read_state_file stored).contains dk.1 = true by simpa using hmem] at h1
    cases h1
  · exact (calculate_kpis_keys_nodup records).sublist
      ((List.filter_sublist _).map Prod.fst)
  · show List.filter _ (calculate_kpis (filter_completed_trips records)) = []
    apply List.filter_eq_nil_iff.mpr
    intro dk hdk
    have hmem : dk.1 ∈ (runAggregation stored records).2 := by
      show dk.1 ∈ write_state_file _
      rw [mem_write_state_file, List.mem_append]
      by_cases hp : dk.1 ∈ read_state_file stored
      · exact Or.inl hp
      · refine Or.inr ?_
        refine List.mem_map.mpr ⟨dk, ?_, rfl⟩
        refine List.mem_filter.mpr ⟨hdk, ?_⟩
        simp only [Bool.not_eq_true']
        rw [show (read_state_file stored).contains dk.1 = false by
          simpa using hp]
    simp [read_state_file, hmem]

/-- C2 witness: re-running aggregation over the one-record store right after
a first run publishes nothing. -/
theorem C2_ledger_witness :
    (runAggregation (some (runAggregation none [tripA]).2) [tripA]).1 = [] :=
  (C2_ledger_idempotence none [tripA]).2.2
